import Mathlib

/-!
Shallow embedding of `pkg/volume/util/types/types.go` (kubernetes volume
operation envelope) and proofs of the specification's claims about it.

Go values of interface type `error` are modelled as `Option GoError`:
`none` is the nil interface, `some e` a non-nil interface holding the
dynamic value `e`.  The dynamic type of a Go error is modelled by the
constructor of `GoError`.

`GeneratedOperations.Run` is embedded by translating Go's defer/recover
semantics explicitly: the body runs first, then the deferred calls run in
reverse registration order (`runtime.RecoverFromPanic`, then
`EventRecorderFunc`, then `CompleteFunc`), each reading and possibly
writing the named-return slots `eventErr`/`detailedErr` through the
pointers it was deferred with.  An execution trace records each call and
the slot value each hook observes.
-/

set_option autoImplicit false

namespace VolumeTypes

/-- The struct `OperationTimedOutError { msg string }` from types.go. -/
structure OperationTimedOutError where
  msg : String
deriving DecidableEq

/-- Dynamic values that can sit inside a Go `error` interface in this
development: a `*OperationTimedOutError` pointer (possibly nil — Go's
"typed nil" stored in a non-nil interface), an error wrapping another
error (as produced by `fmt.Errorf` with `%w`), or any other error kind
carrying a message. -/
inductive GoError where
  | timedOut (ptr : Option OperationTimedOutError)
  | wrapped (inner : GoError) (msg : String)
  | other (msg : String)
deriving DecidableEq

/-- A Go `error` interface value: `none` is the nil interface. -/
abbrev ErrVal := Option GoError

/-- Conversion of a `*OperationTimedOutError` pointer to the `error`
interface, as Go performs implicitly.  Converting a nil pointer yields a
NON-nil interface value (the typed-nil phenomenon). -/
def ptrToErr (p : Option OperationTimedOutError) : ErrVal :=
  some (GoError.timedOut p)

/-- Method `func (err *OperationTimedOutError) Error() string { return err.msg }`.
The receiver is a pointer; calling the method on a nil pointer dereferences
nil, which panics — modelled as `Except.error` carrying the Go runtime
message. -/
def OperationTimedOutError.Error (ptr : Option OperationTimedOutError) :
    Except String String :=
  match ptr with
  | none => Except.error "runtime error: invalid memory address or nil pointer dereference"
  | some e => Except.ok e.msg

/-- Constructor `NewOperationTimedOutError(msg string) *OperationTimedOutError`:
returns a (non-nil) pointer to a fresh struct holding `msg`. -/
def NewOperationTimedOutError (msg : String) : Option OperationTimedOutError :=
  some { msg := msg }

/-- Predicate `IsOperationTimeOutError(err error) bool`: the type assertion
`err.(*OperationTimedOutError)` — true exactly when the dynamic type of the
interface value is `*OperationTimedOutError`, with no unwrapping. -/
def IsOperationTimeOutError (err : ErrVal) : Bool :=
  match err with
  | some (GoError.timedOut _) => true
  | _ => false

/-- The `OperationStatus` string type. -/
def OperationStatus := String

def OperationFinished : OperationStatus := "Finished"

def OperationInProgress : OperationStatus := "InProgress"

def OperationStateNoChange : OperationStatus := "NoChange"

/-- The exported annotation-key constant. -/
def VolumeResizerKey : String := "volume.kubernetes.io/storage-resizer"

/-- Outcome of one invocation of the nullary `OperationFunc`: either a
normal return carrying the two error results, or a panic with some value
(panic payloads are modelled by their string rendering). -/
inductive Outcome where
  | ok (eventErr detailedErr : ErrVal)
  | panicked (v : String)

/-- A Go `func(*error)` hook value: it is handed a pointer to an error
slot, so it both observes the slot's current value and leaves a (possibly
changed) value in it.  The result is the value the slot holds after the
hook returns; a hook that only reads is the identity. -/
abbrev HookFn := ErrVal → ErrVal

/-- The struct `GeneratedOperations` from types.go.  `OperationFunc` is a
nullary Go function, embedded by the outcome of its (single) invocation;
the two optional hooks are `func(*error)` values. -/
structure GeneratedOperations where
  OperationName : String
  OperationFunc : Outcome
  EventRecorderFunc : Option HookFn
  CompleteFunc : Option HookFn

/-- One observable event during `Run`: the call of `OperationFunc`, or a
hook call together with the slot value the hook observed (the value the
slot held when the hook was entered). -/
inductive RunEvent where
  | opCall
  | eventHookCall (observed : ErrVal)
  | completeHookCall (observed : ErrVal)

/-- Execution state of `Run` after the body and during the deferred calls:
whether a panic is in flight, the two named-return slots, and the trace of
events so far. -/
structure ExecState where
  panicking : Option String
  eventErr : ErrVal
  detailedErr : ErrVal
  trace : List RunEvent

/-- Modelled from the spec: `runtime.RecoverFromPanic` lives in
`k8s.io/apimachinery/pkg/util/runtime`, which is not among this
repository's sources; per the spec (§4.1 step 3 and §7), any panic raised
by the operation is intercepted and converted into a non-nil error derived
from the panic value, placed in the detailedError output. -/
def RecoverFromPanic (r : String) : GoError :=
  GoError.other ("recovered from panic " ++ r)

/-- The deferred `runtime.RecoverFromPanic(&detailedErr)` call: if a panic
is in flight, `recover()` returns its value and stops the unwinding, and
the converted error is written through the pointer into the detailedErr
slot; otherwise `recover()` returns nil and nothing happens. -/
def recoverStep (s : ExecState) : ExecState :=
  match s.panicking with
  | none => s
  | some r => { s with panicking := none, detailedErr := some (RecoverFromPanic r) }

/-- The deferred `o.EventRecorderFunc(&eventErr)` call (skipped when the
field is nil): the hook observes the current eventErr slot and leaves its
result there.  Deferred calls run even while a panic is unwinding. -/
def eventHookStep (h : Option HookFn) (s : ExecState) : ExecState :=
  match h with
  | none => s
  | some f =>
      { s with
        eventErr := f s.eventErr
        trace := s.trace ++ [RunEvent.eventHookCall s.eventErr] }

/-- The deferred `o.CompleteFunc(&detailedErr)` call (skipped when the
field is nil): the hook observes the current detailedErr slot and leaves
its result there. -/
def completeHookStep (h : Option HookFn) (s : ExecState) : ExecState :=
  match h with
  | none => s
  | some f =>
      { s with
        detailedErr := f s.detailedErr
        trace := s.trace ++ [RunEvent.completeHookCall s.detailedErr] }

/-- The body `return o.OperationFunc()`: on a normal return the two
results are captured into the named-return slots; on a panic both slots
still hold their zero value (nil) and the panic starts unwinding. -/
def runBody (op : Outcome) : ExecState :=
  match op with
  | Outcome.ok e1 e2 =>
      { panicking := none, eventErr := e1, detailedErr := e2, trace := [RunEvent.opCall] }
  | Outcome.panicked v =>
      { panicking := some v, eventErr := none, detailedErr := none, trace := [RunEvent.opCall] }

/-- Method `func (o *GeneratedOperations) Run() (eventErr, detailedErr error)`.
The deferred calls were registered in the order CompleteFunc,
EventRecorderFunc, RecoverFromPanic, so they execute in the reverse
order.  If a panic were still in flight after all deferred calls, it would
propagate to the caller (`Except.error`); otherwise `Run` returns the
final slot values.  The trace of the execution is returned alongside. -/
def GeneratedOperations.Run (o : GeneratedOperations) :
    Except String ((ErrVal × ErrVal) × List RunEvent) :=
  let s := completeHookStep o.CompleteFunc
    (eventHookStep o.EventRecorderFunc (recoverStep (runBody o.OperationFunc)))
  match s.panicking with
  | some v => Except.error v
  | none => Except.ok ((s.eventErr, s.detailedErr), s.trace)

/-- The same method with the receiver threaded through explicitly: the
source of `Run` reads `o.CompleteFunc`, `o.EventRecorderFunc` and
`o.OperationFunc` but contains no assignment to any field of `o`, so the
receiver after the call is the receiver that was passed in. -/
def GeneratedOperations.RunMethod (o : GeneratedOperations) :
    GeneratedOperations × Except String ((ErrVal × ErrVal) × List RunEvent) :=
  let recv := o
  let s := completeHookStep recv.CompleteFunc
    (eventHookStep recv.EventRecorderFunc (recoverStep (runBody recv.OperationFunc)))
  (recv,
    match s.panicking with
    | some v => Except.error v
    | none => Except.ok ((s.eventErr, s.detailedErr), s.trace))

/-- True on the event recording the `OperationFunc` call. -/
def isOpCall : RunEvent → Bool
  | RunEvent.opCall => true
  | _ => false

/-- True on events recording an `EventRecorderFunc` call. -/
def isEventCall : RunEvent → Bool
  | RunEvent.eventHookCall _ => true
  | _ => false

/-- True on events recording a `CompleteFunc` call. -/
def isCompleteCall : RunEvent → Bool
  | RunEvent.completeHookCall _ => true
  | _ => false

/-- The slot values observed by `EventRecorderFunc`, in call order. -/
def observedEvents (t : List RunEvent) : List ErrVal :=
  t.filterMap fun e =>
    match e with
    | RunEvent.eventHookCall x => some x
    | _ => none

/-- The slot values observed by `CompleteFunc`, in call order. -/
def observedCompletes (t : List RunEvent) : List ErrVal :=
  t.filterMap fun e =>
    match e with
    | RunEvent.completeHookCall x => some x
    | _ => none

/-- How many times `OperationFunc` was called. -/
def opCallCount (t : List RunEvent) : Nat :=
  t.countP isOpCall

/-- How many times `EventRecorderFunc` was called. -/
def eventCallCount (t : List RunEvent) : Nat :=
  t.countP isEventCall

/-- How many times `CompleteFunc` was called. -/
def completeCallCount (t : List RunEvent) : Nat :=
  t.countP isCompleteCall

/-- True when no `EventRecorderFunc` call occurs after any `CompleteFunc`
call in the trace: every suffix that starts at a complete-hook call is
free of event-hook calls. -/
def hookOrderOK : List RunEvent → Bool
  | [] => true
  | e :: rest =>
      (!(isCompleteCall e) || rest.all fun x => !(isEventCall x)) && hookOrderOK rest

/-- Envelope whose CompleteFunc writes through its `*error` pointer,
refuting the verbatim-pass-through reading of claim C1. -/
def c1CexEnvelope : GeneratedOperations where
  OperationName := "c1-cex"
  OperationFunc := Outcome.ok none none
  EventRecorderFunc := none
  CompleteFunc := some fun _ => some (GoError.other "written-by-hook")

/-- Envelope with two read-only hooks, used to instantiate claim C1. -/
def c1WitnessEnvelope : GeneratedOperations where
  OperationName := "c1-wit"
  OperationFunc := Outcome.ok (some (GoError.other "e1")) (some (GoError.other "e2"))
  EventRecorderFunc := some fun x => x
  CompleteFunc := some fun x => x

/-- Envelope whose CompleteFunc overwrites the converted panic error with
nil, refuting the returned-value part of claim C2. -/
def c2CexEnvelope : GeneratedOperations where
  OperationName := "c2-cex"
  OperationFunc := Outcome.panicked "boom"
  EventRecorderFunc := none
  CompleteFunc := some fun _ => none

/-- Envelope whose operation panics, with a read-only CompleteFunc, used
to instantiate claim C2. -/
def c2WitnessEnvelope : GeneratedOperations where
  OperationName := "c2-wit"
  OperationFunc := Outcome.panicked "boom2"
  EventRecorderFunc := none
  CompleteFunc := some fun x => x

end VolumeTypes

namespace VolumeTypes

/-- Claim C1 (amended) — for every `OperationFunc` returning `(e1, e2)`
without panicking, each set hook is invoked exactly once, `EventRecorderFunc`
observing `e1` and `CompleteFunc` observing `e2`; `Run` itself neither wraps
nor alters the errors, and it returns exactly `(e1, e2)` provided the hooks
(taking `*error` pointers) leave the slots unchanged — a slot-writing hook
changes the named return. -/
theorem run_passes_errors_through (o : GeneratedOperations) (e1 e2 : ErrVal)
    (hop : o.OperationFunc = Outcome.ok e1 e2) :
    ∃ e1f e2f t, o.Run = Except.ok ((e1f, e2f), t) ∧
      observedEvents t = (if o.EventRecorderFunc.isSome then [e1] else []) ∧
      observedCompletes t = (if o.CompleteFunc.isSome then [e2] else []) ∧
      ((∀ f, o.EventRecorderFunc = some f → ∀ x, f x = x) →
        (∀ f, o.CompleteFunc = some f → ∀ x, f x = x) →
        e1f = e1 ∧ e2f = e2) := by
  rcases o with ⟨name, op, hE, hC⟩
  obtain rfl : op = Outcome.ok e1 e2 := hop
  cases hE with
  | none =>
      cases hC with
      | none => exact ⟨e1, e2, _, rfl, rfl, rfl, fun _ _ => ⟨rfl, rfl⟩⟩
      | some g =>
          exact ⟨e1, g e2, _, rfl, rfl, rfl, fun _ hCid => ⟨rfl, hCid g rfl e2⟩⟩
  | some f =>
      cases hC with
      | none =>
          exact ⟨f e1, e2, _, rfl, rfl, rfl, fun hEid _ => ⟨hEid f rfl e1, rfl⟩⟩
      | some g =>
          exact ⟨f e1, g e2, _, rfl, rfl, rfl,
            fun hEid hCid => ⟨hEid f rfl e1, hCid g rfl e2⟩⟩

/-- Claim C1 counterexample — an envelope whose `OperationFunc` returns
`(nil, nil)` but whose `CompleteFunc` writes a non-nil error through its
`*error` pointer: `Run` returns that written error as `detailedErr`, not
the pair the operation returned. -/
theorem run_passes_errors_through_cex :
    c1CexEnvelope.OperationFunc = Outcome.ok none none ∧
    c1CexEnvelope.Run =
      Except.ok ((none, some (GoError.other "written-by-hook")),
        [RunEvent.opCall, RunEvent.completeHookCall none]) ∧
    (some (GoError.other "written-by-hook") : ErrVal) ≠ none :=
  ⟨rfl, rfl, by simp⟩

/-- Claim C1 witness — the amended claim instantiated at a concrete
envelope with two read-only hooks. -/
theorem run_passes_errors_through_witness :
    c1WitnessEnvelope.OperationFunc =
      Outcome.ok (some (GoError.other "e1")) (some (GoError.other "e2")) ∧
    (∃ e1f e2f t, c1WitnessEnvelope.Run = Except.ok ((e1f, e2f), t) ∧
      observedEvents t =
        (if c1WitnessEnvelope.EventRecorderFunc.isSome
          then [some (GoError.other "e1")] else []) ∧
      observedCompletes t =
        (if c1WitnessEnvelope.CompleteFunc.isSome
          then [some (GoError.other "e2")] else []) ∧
      ((∀ f, c1WitnessEnvelope.EventRecorderFunc = some f → ∀ x, f x = x) →
        (∀ f, c1WitnessEnvelope.CompleteFunc = some f → ∀ x, f x = x) →
        e1f = some (GoError.other "e1") ∧ e2f = some (GoError.other "e2"))) :=
  ⟨rfl, run_passes_errors_through c1WitnessEnvelope _ _ rfl⟩

/-- Claim C2 (amended) — for every `OperationFunc` that panics with value
`v`, `Run` itself does not panic (it returns normally); the panic is
converted to the non-nil error `RecoverFromPanic v` in the detailedErr
slot; `CompleteFunc`, if set, is invoked and observes exactly that
converted error; and `Run` returns it as `detailedErr` provided
`CompleteFunc` (if set) leaves the slot unchanged. -/
theorem run_contains_panics (o : GeneratedOperations) (v : String)
    (hop : o.OperationFunc = Outcome.panicked v) :
    ∃ e d t, o.Run = Except.ok ((e, d), t) ∧
      observedCompletes t =
        (if o.CompleteFunc.isSome then [some (RecoverFromPanic v)] else []) ∧
      ((∀ f, o.CompleteFunc = some f → ∀ x, f x = x) →
        d = some (RecoverFromPanic v)) := by
  rcases o with ⟨name, op, hE, hC⟩
  obtain rfl : op = Outcome.panicked v := hop
  cases hE with
  | none =>
      cases hC with
      | none => exact ⟨_, _, _, rfl, rfl, fun _ => rfl⟩
      | some g => exact ⟨_, _, _, rfl, rfl, fun hCid => hCid g rfl _⟩
  | some f =>
      cases hC with
      | none => exact ⟨_, _, _, rfl, rfl, fun _ => rfl⟩
      | some g => exact ⟨_, _, _, rfl, rfl, fun hCid => hCid g rfl _⟩

/-- Claim C2 counterexample — the panic is converted and observed by
`CompleteFunc`, but a `CompleteFunc` that writes nil through its `*error`
pointer makes `Run` return a nil `detailedErr`, refuting "the
detailedError it returns is non-nil". -/
theorem run_contains_panics_cex :
    c2CexEnvelope.OperationFunc = Outcome.panicked "boom" ∧
    c2CexEnvelope.Run =
      Except.ok ((none, none),
        [RunEvent.opCall, RunEvent.completeHookCall (some (RecoverFromPanic "boom"))]) ∧
    (some (RecoverFromPanic "boom") : ErrVal) ≠ none :=
  ⟨rfl, rfl, by simp⟩

/-- Claim C2 witness — the amended claim instantiated at a concrete
panicking envelope with a read-only CompleteFunc. -/
theorem run_contains_panics_witness :
    c2WitnessEnvelope.OperationFunc = Outcome.panicked "boom2" ∧
    (∃ e d t, c2WitnessEnvelope.Run = Except.ok ((e, d), t) ∧
      observedCompletes t =
        (if c2WitnessEnvelope.CompleteFunc.isSome
          then [some (RecoverFromPanic "boom2")] else []) ∧
      ((∀ f, c2WitnessEnvelope.CompleteFunc = some f → ∀ x, f x = x) →
        d = some (RecoverFromPanic "boom2"))) :=
  ⟨rfl, run_contains_panics c2WitnessEnvelope "boom2" rfl⟩

/-- Claim C3 — on every call to `Run` (normal return or panic), the hooks
that fire do so with `EventRecorderFunc` first and `CompleteFunc` second:
no event-hook call ever occurs after a complete-hook call in the trace. -/
theorem run_hook_order (o : GeneratedOperations) :
    ∃ r t, o.Run = Except.ok (r, t) ∧ hookOrderOK t = true := by
  rcases o with ⟨name, op, hE, hC⟩
  cases op <;> cases hE <;> cases hC <;> exact ⟨_, _, rfl, rfl⟩

/-- Claim C4 — on every call to `Run`, `OperationFunc` is executed exactly
once, and each hook is executed exactly once if set and zero times if
unset, whether or not `OperationFunc` panics. -/
theorem run_exactly_once (o : GeneratedOperations) :
    ∃ r t, o.Run = Except.ok (r, t) ∧
      opCallCount t = 1 ∧
      eventCallCount t = (if o.EventRecorderFunc.isSome then 1 else 0) ∧
      completeCallCount t = (if o.CompleteFunc.isSome then 1 else 0) := by
  rcases o with ⟨name, op, hE, hC⟩
  cases op <;> cases hE <;> cases hC <;> exact ⟨_, _, rfl, rfl, rfl, rfl⟩

/-- Claim C5 — hooks observe the final slot values: on a normal return the
set hooks observe exactly the two returned errors; on a panic,
`EventRecorderFunc` observes nil (the zero value — the operation cannot
have set the slot before panicking) and `CompleteFunc` observes exactly
the converted panic error. -/
theorem run_hooks_observe_final_values (o : GeneratedOperations) :
    ∃ e d t, o.Run = Except.ok ((e, d), t) ∧
      (match o.OperationFunc with
        | Outcome.ok e1 e2 =>
            observedEvents t = (if o.EventRecorderFunc.isSome then [e1] else []) ∧
            observedCompletes t = (if o.CompleteFunc.isSome then [e2] else [])
        | Outcome.panicked v =>
            observedEvents t =
              (if o.EventRecorderFunc.isSome then [(none : ErrVal)] else []) ∧
            observedCompletes t =
              (if o.CompleteFunc.isSome then [some (RecoverFromPanic v)] else [])) := by
  rcases o with ⟨name, op, hE, hC⟩
  cases op <;> cases hE <;> cases hC <;> exact ⟨_, _, _, rfl, rfl, rfl⟩

/-- Claim C6 — IsOperationTimeOutError is an exact dynamic-type check:
true on every constructed timeout error, false on nil, true only on the
timeout dynamic type, and false on a wrapper around any error (no
unwrapping is performed). -/
theorem isOperationTimeOutError_exact_kind :
    (∀ m : String, IsOperationTimeOutError (ptrToErr (NewOperationTimedOutError m)) = true) ∧
    IsOperationTimeOutError none = false ∧
    (∀ e : GoError, IsOperationTimeOutError (some e) = true ↔ ∃ p, e = GoError.timedOut p) ∧
    (∀ (inner : GoError) (m : String),
      IsOperationTimeOutError (some (GoError.wrapped inner m)) = false) := by
  refine ⟨fun m => rfl, rfl, fun e => ?_, fun inner m => rfl⟩
  cases e with
  | timedOut p => simp [IsOperationTimeOutError]
  | wrapped inner m => simp [IsOperationTimeOutError]
  | other m => simp [IsOperationTimeOutError]

/-- Claim C7 — an envelope with both hooks nil and an operation returning
`(nil, nil)`: `Run` returns `(nil, nil)`, does not panic, and its trace
holds the operation call only — no hook calls. -/
theorem run_noop_envelope (name : String) :
    GeneratedOperations.Run
      { OperationName := name
        OperationFunc := Outcome.ok none none
        EventRecorderFunc := none
        CompleteFunc := none } =
      Except.ok ((none, none), [RunEvent.opCall]) :=
  rfl

/-- Claim C8 — `Run` mutates no field of the receiver: the method's source
contains no assignment to `o`'s fields, so after the call every field
equals what it was before, and the call's result is that of `Run`. -/
theorem run_no_field_mutation (o : GeneratedOperations) :
    (o.RunMethod).1.OperationName = o.OperationName ∧
    (o.RunMethod).1.OperationFunc = o.OperationFunc ∧
    (o.RunMethod).1.EventRecorderFunc = o.EventRecorderFunc ∧
    (o.RunMethod).1.CompleteFunc = o.CompleteFunc ∧
    (o.RunMethod).2 = o.Run :=
  ⟨rfl, rfl, rfl, rfl, rfl⟩

/-- Claim C9 — classification is by dynamic type only: a typed-nil
`*OperationTimedOutError` stored in the interface is classified as a
timeout error, although calling `Error` on that nil pointer panics. -/
theorem isOperationTimeOutError_typed_nil :
    IsOperationTimeOutError (ptrToErr (none : Option OperationTimedOutError)) = true ∧
    (OperationTimedOutError.Error none).isOk = false :=
  ⟨rfl, rfl⟩

/-- Claim C10 — constructor/accessor round-trip: the message of a
constructed timeout error is returned verbatim by `Error`, with no prefix
or alteration. -/
theorem newOperationTimedOutError_roundtrip (m : String) :
    OperationTimedOutError.Error (NewOperationTimedOutError m) = Except.ok m :=
  rfl

end VolumeTypes
